import Mathlib

/-!
# Verification of the Intervyou video-interview analysis core

Shallow embedding, in Lean 4, of the score-fusion, validation, gaze,
voice-clarity, recommendation and realtime-session logic of
`src/video_analysis.py` and `src/realtime_analysis.py`.

Python floats are modelled as rationals (`ℚ`); The Python `round(x, n)` operation is
modelled as round-half-up-to-even-free rounding `round (10^n * x) / 10^n`
(the Mathlib `round`, i.e. `⌊y + 1/2⌋`); Python dict keys that may be absent
(or `None`, or a falsy dict) are modelled as `Option`; Python lists as
`List`.  Each definition names, in its doc comment, the Python function it
translates.
-/

set_option maxHeartbeats 2000000
set_option maxRecDepth 8192

namespace Intervyou

/-- Python `round(x, 2)` on a rational. -/
def round2 (x : ℚ) : ℚ := (round (100 * x) : ℚ) / 100

/-- Python `round(x, 3)` on a rational (used for gaze offsets). -/
def round3 (x : ℚ) : ℚ := (round (1000 * x) : ℚ) / 1000

/-- Python `max(0.0, min(10.0, x))`, the clamp applied by every composite
score function in `video_analysis.py`. -/
def clamp010 (x : ℚ) : ℚ := max 0 (min 10 x)

theorem clamp010_nonneg (x : ℚ) : 0 ≤ clamp010 x := le_max_left 0 _

theorem clamp010_le_ten (x : ℚ) : clamp010 x ≤ 10 := by
  unfold clamp010
  exact max_le (by norm_num) (min_le_left _ _)

theorem round2_nonneg {x : ℚ} (hx : 0 ≤ x) : 0 ≤ round2 x := by
  unfold round2
  have h1 : (0 : ℤ) ≤ round (100 * x) := by
    have h0 : round (0 : ℚ) ≤ round (100 * x) := by
      rw [round_eq, round_eq]
      exact Int.floor_le_floor (by linarith)
    rw [round_zero] at h0
    exact h0
  positivity

theorem round2_le_ten {x : ℚ} (hx : x ≤ 10) : round2 x ≤ 10 := by
  unfold round2
  have h1 : round (100 * x) ≤ round (1000 : ℚ) := by
    rw [round_eq, round_eq]
    exact Int.floor_le_floor (by linarith)
  have h2 : round (1000 : ℚ) = 1000 := by
    have := round_natCast (α := ℚ) 1000
    simpa using this
  rw [h2] at h1
  have h3 : ((round (100 * x) : ℤ) : ℚ) ≤ 1000 := by exact_mod_cast h1
  linarith

/-- `round2` moves a value by at most `1/200` (half of the last kept digit). -/
theorem abs_round2_sub (x : ℚ) : |round2 x - x| ≤ 1 / 200 := by
  have h := abs_sub_round (100 * x)
  have key : round2 x - x = ((round (100 * x) : ℚ) - 100 * x) / 100 := by
    unfold round2; ring
  rw [key, abs_div, abs_sub_comm]
  have h100 : |(100 : ℚ)| = 100 := by norm_num
  rw [h100]
  linarith

/-- The clamp-then-round pattern `round(max(0.0, min(10.0, v)), 2)` always
lands in `[0, 10]`. -/
theorem round2_clamp010_mem (x : ℚ) : 0 ≤ round2 (clamp010 x) ∧ round2 (clamp010 x) ≤ 10 :=
  ⟨round2_nonneg (clamp010_nonneg x), round2_le_ten (clamp010_le_ten x)⟩

/-! ## Gaze direction (`VideoAnalyzer._calculate_gaze_direction`) -/

/-- The five gaze-direction labels produced by
`_calculate_gaze_direction` in `src/video_analysis.py`. -/
inductive GazeDir
  | center
  | left
  | right
  | up
  | down
deriving DecidableEq, Repr

/-- The dict `{"direction": ..., "x": ..., "y": ...}` returned by
`_calculate_gaze_direction`. -/
structure GazeResult where
  direction : GazeDir
  x : ℚ
  y : ℚ
deriving DecidableEq, Repr

/-- Body of `VideoAnalyzer._calculate_gaze_direction`
(`src/video_analysis.py:509`), taking the already-computed normalized iris
offsets `x_offset`, `y_offset` as inputs:

```
direction = "center"
if abs(x_offset) > 0.15:
    direction = "right" if x_offset > 0 else "left"
elif abs(y_offset) > 0.1:
    direction = "up" if y_offset < 0 else "down"
return {"direction": direction, "x": round(x_offset, 3), "y": round(y_offset, 3)}
``` -/
def calculate_gaze_direction (xOffset yOffset : ℚ) : GazeResult :=
  let direction :=
    if |xOffset| > 15 / 100 then (if xOffset > 0 then GazeDir.right else GazeDir.left)
    else if |yOffset| > 1 / 10 then (if yOffset < 0 then GazeDir.up else GazeDir.down)
    else GazeDir.center
  { direction := direction, x := round3 xOffset, y := round3 yOffset }

/-- The `except:` fallback of `_calculate_gaze_direction`
(`src/video_analysis.py:543`): when the landmark computation raises, the
frame is reported as `center` with zero offsets.  `none` models the
raising computation, `some (x, y)` a successful offset computation. -/
def calculate_gaze_direction_result : Option (ℚ × ℚ) → GazeResult
  | some (x, y) => calculate_gaze_direction x y
  | none => { direction := GazeDir.center, x := 0, y := 0 }

/-! ## Voice clarity (`VideoAnalyzer._analyze_voice`, filler-word part) -/

/-- The clarity computation of `VideoAnalyzer._analyze_voice`
(`src/video_analysis.py:856` onward), as a function of the word count and
total filler count extracted from the transcript.  The surrounding control
flow is faithful to the source: the whole filler/clarity block runs only
under `if transcription:` (a falsy, i.e. empty, transcription leaves the
default `clarity_score = 0.0` from the `voice_data` initializer), and
inside it

```
if word_count > 0:
    filler_ratio = voice_data["total_filler_count"] / word_count
    voice_data["clarity_score"] = round(max(0, 1 - (filler_ratio * 2)), 2)
else:
    voice_data["clarity_score"] = 0.8
``` -/
def analyze_voice_clarity (transcriptionNonempty : Bool) (word_count total_filler_count : ℕ) : ℚ :=
  if transcriptionNonempty then
    if word_count > 0 then
      round2 (max 0 (1 - ((total_filler_count : ℚ) / (word_count : ℚ)) * 2))
    else 4 / 5
  else 0

/-! ## Quality validation (`VideoAnalyzer._validate_video_quality`)

User-facing message texts are abbreviated ASCII forms of the strings in the source; only their identity and count matter to the control flow. -/

def issueTooShort : String := "Video too short (minimum 10 seconds required)"
def recLongerVideo : String := "Record a longer video - at least 10 seconds needed for meaningful analysis"
def recTypicalLength : String := "A good interview answer typically takes 30-90 seconds"
def issueNoFace : String := "Face not detected in most frames"
def recFaceVisible : String := "Ensure your face is clearly visible in the camera frame"
def recLighting : String := "Position yourself in good lighting facing the camera"
def issueNoAudio : String := "No speech detected or audio too quiet"
def recMicrophone : String := "Speak clearly and ensure your microphone is working"
def recAudioSettings : String := "Check audio settings and speak at normal volume"
def recRecordAgain : String := "Please record again with proper setup for accurate analysis"

/-- The validation report dict built by `_validate_video_quality`
(`src/video_analysis.py:201`).  `faceDetectionRate` translates the source
key `face_detection_ratio` (the stored, already-rounded ratio) and
`audioPresent` the key `has_audio`. -/
structure Validation where
  is_valid : Bool
  duration : ℚ
  faceDetectionRate : ℚ
  audioPresent : Bool
  audio_energy : ℚ
  issues : List String
  recommendations : List String
  suggested_score : ℚ
deriving DecidableEq, Repr

/-- `VideoAnalyzer._validate_video_quality` (`src/video_analysis.py:201`),
as a function of the measured quantities: the raw `duration`
(`frame_count / fps`), the stored face-detection ratio `faceRate`
(`round(faces_detected / frames_checked, 2)`, 0 when no frame was read),
whether the audio track loaded without raising (`audioLoadOk`), and the
stored RMS energy `audio_energy` (`round(float(np.mean(rms)), 4)`).
The four rules fire in source order:

```
if duration < 10: invalid; suggested = min(3.0, duration / 10 * 3.0)
if face_detection_ratio < 0.3: invalid; suggested = max(suggested, 2.0)
if not has_audio or audio_energy < 0.01: invalid; suggested = max(suggested, 2.0)
if len(issues) >= 2: suggested = min(suggested, 2.5)
if not is_valid: recommendations.append(general advice)
``` -/
def validate_video_quality (duration faceRate : ℚ) (audioLoadOk : Bool)
    (audio_energy : ℚ) : Validation :=
  let energy : ℚ := if audioLoadOk then audio_energy else 0
  let hasAud : Bool := audioLoadOk && decide (energy > 1 / 100)
  let v0 : Validation :=
    { is_valid := true
      duration := round2 duration
      faceDetectionRate := faceRate
      audioPresent := hasAud
      audio_energy := energy
      issues := []
      recommendations := []
      suggested_score := 0 }
  let v1 :=
    if duration < 10 then
      { v0 with
        is_valid := false
        issues := v0.issues ++ [issueTooShort]
        recommendations := v0.recommendations ++ [recLongerVideo, recTypicalLength]
        suggested_score := min 3 (duration / 10 * 3) }
    else v0
  let v2 :=
    if faceRate < 3 / 10 then
      { v1 with
        is_valid := false
        issues := v1.issues ++ [issueNoFace]
        recommendations := v1.recommendations ++ [recFaceVisible, recLighting]
        suggested_score := max v1.suggested_score 2 }
    else v1
  let v3 :=
    if hasAud = false ∨ energy < 1 / 100 then
      { v2 with
        is_valid := false
        issues := v2.issues ++ [issueNoAudio]
        recommendations := v2.recommendations ++ [recMicrophone, recAudioSettings]
        suggested_score := max v2.suggested_score 2 }
    else v2
  let v4 :=
    if 2 ≤ v3.issues.length then { v3 with suggested_score := min v3.suggested_score (5 / 2) }
    else v3
  if v4.is_valid = false then
    { v4 with recommendations := v4.recommendations ++ [recRecordAgain] }
  else v4

/-! ## The batch pipeline entry (`VideoAnalyzer.analyze_video`) -/

/-- The fields of the `results` dict built by `analyze_video`
(`src/video_analysis.py:106`) that the validation early-return touches.
The per-modality summaries the full pipeline would add are abstracted into
the `pipeline` continuation of `analyze_video` below. -/
structure AnalysisResults where
  confidence_score : ℚ
  professionalism_score : ℚ
  engagement_score : ℚ
  authenticity_score : ℚ
  recommendations : List String
  validationReport : Validation
deriving DecidableEq, Repr

/-- The initializer of the `results` dict in `analyze_video`: all scores
`0.0`, empty recommendation list, with the computed validation stored. -/
def initResults (v : Validation) : AnalysisResults :=
  { confidence_score := 0
    professionalism_score := 0
    engagement_score := 0
    authenticity_score := 0
    recommendations := []
    validationReport := v }

/-- Control flow of `VideoAnalyzer.analyze_video`
(`src/video_analysis.py:123`): after storing the validation report, if
`is_valid` is false the three primary scores are set to
`suggested_score`, the validation recommendations are copied over, and the
function returns without touching the rest of the pipeline (§4.2-§4.9 of
the spec), which is abstracted here as the `pipeline` continuation. -/
def analyze_video (v : Validation) (pipeline : Validation → AnalysisResults) :
    AnalysisResults :=
  if v.is_valid = false then
    { initResults v with
      confidence_score := v.suggested_score
      professionalism_score := v.suggested_score
      engagement_score := v.suggested_score
      recommendations := v.recommendations }
  else pipeline v

/-! ## Claims C3, C4, C5, C7 -/

/-- C5: for every pair of iris offsets, the gaze classifier returns
`center` unless `|x_offset| > 0.15` (then `right` if positive else `left`)
or else `|y_offset| > 0.10` (then `up` if negative else `down`), the
horizontal threshold being checked before the vertical one; in particular
`x = 0.20, y = 0.00` classifies as `right` and `x = 0.05, y = 0.15` as
`down`. -/
theorem C5_gaze_classification :
    (∀ x y : ℚ, ¬(|x| > 15 / 100) → ¬(|y| > 1 / 10) →
      (calculate_gaze_direction x y).direction = GazeDir.center)
    ∧ (∀ x y : ℚ, |x| > 15 / 100 →
      (calculate_gaze_direction x y).direction =
        (if x > 0 then GazeDir.right else GazeDir.left))
    ∧ (∀ x y : ℚ, ¬(|x| > 15 / 100) → |y| > 1 / 10 →
      (calculate_gaze_direction x y).direction =
        (if y < 0 then GazeDir.up else GazeDir.down))
    ∧ (calculate_gaze_direction (20 / 100) 0).direction = GazeDir.right
    ∧ (calculate_gaze_direction (5 / 100) (15 / 100)).direction = GazeDir.down := by
  refine ⟨?_, ?_, ?_, ?_, ?_⟩
  · intro x y hx hy
    simp only [calculate_gaze_direction]
    rw [if_neg hx, if_neg hy]
  · intro x y hx
    simp only [calculate_gaze_direction]
    rw [if_pos hx]
  · intro x y hx hy
    simp only [calculate_gaze_direction]
    rw [if_neg hx, if_pos hy]
  · have hx : |(20 / 100 : ℚ)| > 15 / 100 := by
      rw [show |(20 / 100 : ℚ)| = 20 / 100 from abs_of_pos (by norm_num)]
      norm_num
    simp only [calculate_gaze_direction]
    rw [if_pos hx, if_pos (by norm_num : (20 / 100 : ℚ) > 0)]
  · have hx : ¬(|(5 / 100 : ℚ)| > 15 / 100) := by
      rw [show |(5 / 100 : ℚ)| = 5 / 100 from abs_of_pos (by norm_num)]
      norm_num
    have hy : |(15 / 100 : ℚ)| > 1 / 10 := by
      rw [show |(15 / 100 : ℚ)| = 15 / 100 from abs_of_pos (by norm_num)]
      norm_num
    simp only [calculate_gaze_direction]
    rw [if_neg hx, if_pos hy, if_neg (by norm_num : ¬((15 / 100 : ℚ) < 0))]

/-- Witness for C5 at concrete offsets `x = 0.20, y = 0`. -/
theorem C5_gaze_classification_witness :
    |(20 / 100 : ℚ)| > 15 / 100
    ∧ (calculate_gaze_direction (20 / 100) 0).direction = GazeDir.right := by
  have h : |(20 / 100 : ℚ)| > 15 / 100 := by
    rw [show |(20 / 100 : ℚ)| = 20 / 100 from abs_of_pos (by norm_num)]
    norm_num
  refine ⟨h, ?_⟩
  have h2 := C5_gaze_classification.2.1 (20 / 100) 0 h
  rw [h2]
  norm_num

/-- C7: for every transcript processed by the voice analyzer (nonempty
transcription), `clarity_score` is `max(0, 1 - 2*(fillers/words))` (up to
the 2-decimal rounding the source applies, which moves the value by at
most `1/200`) when `word_count > 0`, and the neutral default `0.8`
otherwise; a 100-word transcript with 0 filler occurrences yields `1.0`
and one with 15 filler occurrences yields `0.70`. -/
theorem C7_clarity_formula :
    (∀ w f : ℕ, 0 < w →
      analyze_voice_clarity true w f = round2 (max 0 (1 - 2 * ((f : ℚ) / (w : ℚ))))
      ∧ |analyze_voice_clarity true w f - max 0 (1 - 2 * ((f : ℚ) / (w : ℚ)))| ≤ 1 / 200)
    ∧ (∀ f : ℕ, analyze_voice_clarity true 0 f = 4 / 5)
    ∧ analyze_voice_clarity true 100 0 = 1
    ∧ analyze_voice_clarity true 100 15 = 7 / 10 := by
  refine ⟨?_, ?_, by norm_num [analyze_voice_clarity, round2, round_eq],
    by norm_num [analyze_voice_clarity, round2, round_eq]⟩
  · intro w f hw
    have harg : ((f : ℚ) / (w : ℚ)) * 2 = 2 * ((f : ℚ) / (w : ℚ)) := by ring
    have heq : analyze_voice_clarity true w f
        = round2 (max 0 (1 - 2 * ((f : ℚ) / (w : ℚ)))) := by
      simp only [analyze_voice_clarity, if_true, hw, if_pos, harg]
    exact ⟨heq, heq ▸ abs_round2_sub _⟩
  · intro f
    simp [analyze_voice_clarity]

/-- Witness for C7 at a 100-word transcript with 15 filler occurrences. -/
theorem C7_clarity_formula_witness :
    0 < 100
    ∧ analyze_voice_clarity true 100 15 = round2 (max 0 (1 - 2 * ((15 : ℚ) / 100))) := by
  exact ⟨by norm_num, (C7_clarity_formula.1 100 15 (by norm_num)).1⟩

/-- C4: whenever the measured duration is below 10 seconds, the validator
marks the report invalid, and (when no other issue fires) the suggested
score is `min(3.0, 3.0 * duration / 10)`. -/
theorem C4_short_video_invalid (d fr ae : ℚ) (ok : Bool) (hd : d < 10) :
    (validate_video_quality d fr ok ae).is_valid = false
    ∧ (3 / 10 ≤ fr → 1 / 100 < ae → ok = true →
        (validate_video_quality d fr ok ae).suggested_score = min 3 (d / 10 * 3)) := by
  constructor
  · simp only [validate_video_quality]
    split_ifs <;> simp_all
  · intro hfr hae hok
    subst hok
    have hinv : ((100 : ℚ))⁻¹ = 1 / 100 := by norm_num
    have h1 : ¬(fr < 3 / 10) := not_lt.2 hfr
    have hae' : ((100 : ℚ))⁻¹ < ae := by rw [hinv]; exact hae
    have h2 : ¬(ae < ((100 : ℚ))⁻¹) := by rw [hinv]; exact not_lt.2 hae.le
    have h3 : ¬(ae ≤ ((100 : ℚ))⁻¹) := by rw [hinv]; exact not_le.2 hae
    simp [validate_video_quality, hd, h1, h2, h3, hae']

/-- Witness for C4: `duration = 5`, face ratio 1, loud audio: invalid and
`suggested_score = 1.5 ≤ 1.5`. -/
theorem C4_short_video_invalid_witness :
    (5 : ℚ) < 10
    ∧ (validate_video_quality 5 1 true 1).is_valid = false
    ∧ (validate_video_quality 5 1 true 1).suggested_score ≤ 3 / 2 := by
  have h := C4_short_video_invalid 5 1 1 true (by norm_num)
  refine ⟨by norm_num, h.1, ?_⟩
  rw [h.2 (by norm_num) (by norm_num) rfl]
  norm_num [min_def]

/-- C3: whenever validation yields `is_valid = false`, `analyze_video`
returns without running the extraction pipeline (the result does not
depend on it), the three primary composite scores all equal
`suggested_score`, and the validation recommendations are returned. -/
theorem C3_invalid_early_return (v : Validation) (p q : Validation → AnalysisResults)
    (hv : v.is_valid = false) :
    analyze_video v p = analyze_video v q
    ∧ (analyze_video v p).confidence_score = v.suggested_score
    ∧ (analyze_video v p).professionalism_score = v.suggested_score
    ∧ (analyze_video v p).engagement_score = v.suggested_score
    ∧ (analyze_video v p).recommendations = v.recommendations := by
  simp [analyze_video, hv, initResults]

/-- A concrete invalid validation report for the C3 witness. -/
def invalidValidationEx : Validation :=
  { is_valid := false
    duration := 5
    faceDetectionRate := 1
    audioPresent := true
    audio_energy := 1
    issues := [issueTooShort]
    recommendations := [recLongerVideo, recTypicalLength, recRecordAgain]
    suggested_score := 3 / 2 }

/-- Two distinct pipeline continuations, to witness that neither is
consulted on the invalid path. -/
def pipelineEx1 : Validation → AnalysisResults := fun v => initResults v

/-- See `pipelineEx1`. -/
def pipelineEx2 : Validation → AnalysisResults :=
  fun v => { initResults v with confidence_score := 9 }

/-- Witness for C3 at a concrete invalid report and two concrete
pipelines. -/
theorem C3_invalid_early_return_witness :
    invalidValidationEx.is_valid = false
    ∧ analyze_video invalidValidationEx pipelineEx1 = analyze_video invalidValidationEx pipelineEx2
    ∧ (analyze_video invalidValidationEx pipelineEx1).confidence_score
        = invalidValidationEx.suggested_score
    ∧ (analyze_video invalidValidationEx pipelineEx1).recommendations
        = invalidValidationEx.recommendations := by
  have h := C3_invalid_early_return invalidValidationEx pipelineEx1 pipelineEx2 rfl
  exact ⟨rfl, h.1, h.2.1, h.2.2.2.2⟩

/-! ## Composite score fusion
(`_calculate_confidence_score`, `_calculate_professionalism_score`,
`_calculate_engagement_score`, `_calculate_authenticity_score`)

Each optional modality input is an `Option`: `none` models a dict that is
empty/missing or a key that is `None`, exactly the conditions the source
guards with `if d.get(key) is not None` / `if d:` before adding the
weight of the modality to `max_possible` and its contribution to `score`. -/

/-- The per-label averages read from `emotions["summary"]` by the score
functions. -/
structure EmotionAverages where
  happy : ℚ
  neutral : ℚ
  fear : ℚ
  sad : ℚ
  surprise : ℚ
deriving DecidableEq, Repr

/-- The two voice fields read by `_calculate_confidence_score`. -/
structure VoiceForConfidence where
  clarity_score : ℚ
  speech_rate : ℚ
deriving DecidableEq, Repr

/-- Optional inputs of `_calculate_confidence_score`
(`src/video_analysis.py:1107`): `emotions["summary"]`,
`facial["eye_contact"]`, `body["posture_score"]`, `body["stability"]`,
and the `voice_analysis` dict (with its guard
`voice_analysis and voice_analysis.get("clarity_score") is not None`). -/
structure ConfidenceInputs where
  emotionsSummary : Option EmotionAverages
  eye_contact : Option ℚ
  posture_score : Option ℚ
  stability : Option ℚ
  voiceData : Option VoiceForConfidence
deriving DecidableEq, Repr

/-- The accumulation of `score` and `max_possible` in
`_calculate_confidence_score`, in source order.  The emotion term is
`score += max(0, (happy*2 + neutral*1)*3.5 - (fear*2 + sad*1.5)*3.5)`. -/
def confidenceParts (i : ConfidenceInputs) : ℚ × ℚ :=
  let p0 : ℚ × ℚ := (0, 0)
  let p1 := match i.emotionsSummary with
    | some e =>
      (p0.1 + max 0 ((e.happy * 2 + e.neutral * 1) * (7 / 2) - (e.fear * 2 + e.sad * (3 / 2)) * (7 / 2)),
       p0.2 + 7 / 2)
    | none => p0
  let p2 := match i.eye_contact with
    | some ec => (p1.1 + ec * (5 / 2), p1.2 + 5 / 2)
    | none => p1
  let p3 := match i.posture_score with
    | some ps => (p2.1 + ps * (3 / 2), p2.2 + 3 / 2)
    | none => p2
  let p4 := match i.stability with
    | some st => (p3.1 + st * (1 / 2), p3.2 + 1 / 2)
    | none => p3
  match i.voiceData with
  | some v =>
    let p5 := (p4.1 + v.clarity_score * (3 / 2), p4.2 + 3 / 2)
    if v.speech_rate > 0 then
      (p5.1 + (if 120 ≤ v.speech_rate ∧ v.speech_rate ≤ 160 then 1 / 2
               else if 100 ≤ v.speech_rate ∧ v.speech_rate ≤ 180 then 3 / 10 else 0),
       p5.2 + 1 / 2)
    else p5
  | none => p4

/-- `VideoAnalyzer._calculate_confidence_score`
(`src/video_analysis.py:1107`): accumulate, then
`round(max(0.0, min(10.0, score / max_possible * 10)), 2)` when
`max_possible > 0`, else `0.0`. -/
def calculate_confidence_score (i : ConfidenceInputs) : ℚ :=
  let p := confidenceParts i
  if p.2 > 0 then round2 (clamp010 (p.1 / p.2 * 10)) else 0

/-- The two eye-tracking fields read by `_calculate_professionalism_score`;
`eye_contact_percentage`, when present, gates the whole eye-tracking
branch. -/
structure EyeTrackingForScore where
  eye_contact_percentage : Option ℚ
  gaze_stability : Option ℚ
deriving DecidableEq, Repr

/-- Optional inputs of `_calculate_professionalism_score`
(`src/video_analysis.py:1164`).  `face_detected_rate` translates the
source key `face_detected_ratio`. -/
structure ProfessionalismInputs where
  eyeTracking : Option EyeTrackingForScore
  facial_eye_contact : Option ℚ
  face_detected_rate : Option ℚ
  posture_score : Option ℚ
  stability : Option ℚ
deriving DecidableEq, Repr

/-- Score/max accumulation of `_calculate_professionalism_score`: the
eye-tracking branch (weights 3.5 and conditionally 1.5) fires when
`eye_tracking and eye_tracking.get("eye_contact_percentage") is not None`,
else the `facial["eye_contact"]` fallback (weight 3.5); then face
detection ratio (2.0), posture (2.0), stability (1.0). -/
def professionalismParts (i : ProfessionalismInputs) : ℚ × ℚ :=
  let p0 : ℚ × ℚ := (0, 0)
  let fallback : ℚ × ℚ := match i.facial_eye_contact with
    | some fec => (p0.1 + fec * (7 / 2), p0.2 + 7 / 2)
    | none => p0
  let p1 := match i.eyeTracking with
    | some et =>
      match et.eye_contact_percentage with
      | some ecp =>
        let q : ℚ × ℚ := (p0.1 + ecp / 100 * (7 / 2), p0.2 + 7 / 2)
        match et.gaze_stability with
        | some gs => (q.1 + gs * (3 / 2), q.2 + 3 / 2)
        | none => q
      | none => fallback
    | none => fallback
  let p2 := match i.face_detected_rate with
    | some fd => (p1.1 + fd * 2, p1.2 + 2)
    | none => p1
  let p3 := match i.posture_score with
    | some ps => (p2.1 + ps * 2, p2.2 + 2)
    | none => p2
  match i.stability with
  | some st => (p3.1 + st * 1, p3.2 + 1)
  | none => p3

/-- `VideoAnalyzer._calculate_professionalism_score`
(`src/video_analysis.py:1164`). -/
def calculate_professionalism_score (i : ProfessionalismInputs) : ℚ :=
  let p := professionalismParts i
  if p.2 > 0 then round2 (clamp010 (p.1 / p.2 * 10)) else 0

/-- The movement-level strings produced by `_analyze_body_language`. -/
inductive MovementLevel
  | minimal
  | moderate
  | active
deriving DecidableEq, Repr

/-- The two attention fields read by `_calculate_engagement_score`;
`focus_percentage`, when present, gates the attention branch. -/
structure AttentionForScore where
  focus_percentage : Option ℚ
  distraction_count : ℕ
deriving DecidableEq, Repr

/-- Optional inputs of `_calculate_engagement_score`
(`src/video_analysis.py:1211`). -/
structure EngagementInputs where
  emotionsSummary : Option EmotionAverages
  smile_frequency : Option ℚ
  attentionData : Option AttentionForScore
  movement_level : Option MovementLevel
  gestures_detected : Option ℚ
deriving DecidableEq, Repr

/-- Score/max accumulation of `_calculate_engagement_score`:
emotions (`(happy + surprise) * 3.5`, weight 3.5), smile frequency (2.0),
attention branch (focus 2.0 plus distraction bonus 0.5, gated on
`attention and attention.get("focus_percentage") is not None`), movement
level band (1.0, gated on a truthy `movement_level`), and gestures
(`min(gestures_detected * 0.2, 1.0)`, weight 1.0). -/
def engagementParts (i : EngagementInputs) : ℚ × ℚ :=
  let p0 : ℚ × ℚ := (0, 0)
  let p1 := match i.emotionsSummary with
    | some e => (p0.1 + (e.happy + e.surprise) * (7 / 2), p0.2 + 7 / 2)
    | none => p0
  let p2 := match i.smile_frequency with
    | some sf => (p1.1 + sf * 2, p1.2 + 2)
    | none => p1
  let p3 := match i.attentionData with
    | some a =>
      match a.focus_percentage with
      | some fp =>
        let q : ℚ × ℚ := (p2.1 + fp / 100 * 2, p2.2 + 2)
        (q.1 + (if a.distraction_count < 3 then 1 / 2
                else if a.distraction_count < 7 then 1 / 4 else 0),
         q.2 + 1 / 2)
      | none => p2
    | none => p2
  let p4 := match i.movement_level with
    | some MovementLevel.moderate => (p3.1 + 1, p3.2 + 1)
    | some MovementLevel.active => (p3.1 + 7 / 10, p3.2 + 1)
    | some MovementLevel.minimal => (p3.1 + 3 / 10, p3.2 + 1)
    | none => p3
  match i.gestures_detected with
  | some g => (p4.1 + min (g * (1 / 5)) 1, p4.2 + 1)
  | none => p4

/-- `VideoAnalyzer._calculate_engagement_score`
(`src/video_analysis.py:1211`). -/
def calculate_engagement_score (i : EngagementInputs) : ℚ :=
  let p := engagementParts i
  if p.2 > 0 then round2 (clamp010 (p.1 / p.2 * 10)) else 0

/-- The two voice fields read by `_calculate_authenticity_score`
(`voice_analysis.get("pitch", {}).get("std", 0)` and
`voice_analysis.get("clarity_score", 0)`, with their `.get` defaults
folded in). -/
structure VoiceForAuthenticity where
  pitch_std : ℚ
  clarity_score : ℚ
deriving DecidableEq, Repr

/-- `VideoAnalyzer._calculate_authenticity_score`
(`src/video_analysis.py:928`): base 5.0, micro-expression banding
(+2 if `5 <= count <= 20`, elif +1 if `> 20`, elif -1 if `< 5`), then
pitch-variation bonus and clarity term when `voice_analysis` is truthy,
finally `round(max(0.0, min(10.0, score)), 2)`. -/
def calculate_authenticity_score (microCount : ℕ)
    (voiceData : Option VoiceForAuthenticity) : ℚ :=
  let s0 : ℚ := 5
  let s1 : ℚ :=
    if 5 ≤ microCount ∧ microCount ≤ 20 then s0 + 2
    else if microCount > 20 then s0 + 1
    else if microCount < 5 then s0 - 1
    else s0
  let s2 : ℚ := match voiceData with
    | some v =>
      let t := if 20 < v.pitch_std ∧ v.pitch_std < 80 then s1 + 3 / 2 else s1
      t + v.clarity_score * (3 / 2)
    | none => s1
  round2 (clamp010 s2)

/-! ## Spec-side fusion (for claim C1)

The following two definitions follow the words of the SPEC, not the source;
they exist to be compared with the source-translated score functions. -/

/-- `Σ(weight_i × metric_i)` over the modalities that produced a value. -/
def fusionNum (modalities : List (ℚ × Option ℚ)) : ℚ :=
  (modalities.filterMap (fun wm => wm.2.map (fun m => wm.1 * m))).sum

/-- `Σ(weight_i)` over the modalities that produced a value (the "max
achievable weight"). -/
def fusionDen (modalities : List (ℚ × Option ℚ)) : ℚ :=
  (modalities.filterMap (fun wm => wm.2.map (fun _ => wm.1))).sum

/-- Modelled from the spec (§4.9): `Σ(weight_i × normalized_metric_i) /
Σ(weight_i)` summed only over modalities that produced a value (0 when no
modality produced a value). -/
def specWeightedFusion (modalities : List (ℚ × Option ℚ)) : ℚ :=
  if fusionDen modalities > 0 then fusionNum modalities / fusionDen modalities else 0

/-- Modelled from the spec (§8, the behaviour the spec FORBIDS): naive
zero-substitution, where a missing modality contributes metric 0 while its
weight still counts in the denominator. -/
def naiveZeroFusion (modalities : List (ℚ × Option ℚ)) : ℚ :=
  let den := (modalities.map Prod.fst).sum
  if den > 0 then (modalities.map (fun wm => wm.1 * wm.2.getD 0)).sum / den else 0

/-- The confidence weight table as a `(weight, optional metric)` list;
entry order follows `_calculate_confidence_score`. -/
def confModalities (i : ConfidenceInputs) : List (ℚ × Option ℚ) :=
  [(7 / 2, i.emotionsSummary.map
      (fun e => max 0 ((e.happy * 2 + e.neutral * 1) - (e.fear * 2 + e.sad * (3 / 2))))),
   (5 / 2, i.eye_contact),
   (3 / 2, i.posture_score),
   (1 / 2, i.stability),
   (3 / 2, i.voiceData.map (fun v => v.clarity_score)),
   (1 / 2, i.voiceData.bind (fun v =>
      if v.speech_rate > 0 then
        some (if 120 ≤ v.speech_rate ∧ v.speech_rate ≤ 160 then 1
              else if 100 ≤ v.speech_rate ∧ v.speech_rate ≤ 180 then 3 / 5 else 0)
      else none))]

/-- The professionalism weight table; the eye-tracking entries are present
exactly when the eye-tracking branch of the source fires, else the facial
fallback entry is. -/
def profModalities (i : ProfessionalismInputs) : List (ℚ × Option ℚ) :=
  ((match i.eyeTracking with
   | some et =>
     match et.eye_contact_percentage with
     | some ecp => [(7 / 2, some (ecp / 100)), (3 / 2, et.gaze_stability)]
     | none => [(7 / 2, i.facial_eye_contact)]
   | none => [(7 / 2, i.facial_eye_contact)]) : List (ℚ × Option ℚ)) ++
  ([(2, i.face_detected_rate),
    (2, i.posture_score),
    (1, i.stability)] : List (ℚ × Option ℚ))

/-- The engagement weight table. -/
def engModalities (i : EngagementInputs) : List (ℚ × Option ℚ) :=
  [(7 / 2, i.emotionsSummary.map (fun e => e.happy + e.surprise)),
   (2, i.smile_frequency),
   (2, i.attentionData.bind (fun a => a.focus_percentage.map (fun fp => fp / 100))),
   (1 / 2, i.attentionData.bind (fun a => a.focus_percentage.map (fun _ =>
      if a.distraction_count < 3 then 1
      else if a.distraction_count < 7 then 1 / 2 else 0))),
   (1, i.movement_level.map (fun l =>
      match l with
      | MovementLevel.moderate => 1
      | MovementLevel.active => 7 / 10
      | MovementLevel.minimal => 3 / 10)),
   (1, i.gestures_detected.map (fun g => min (g * (1 / 5)) 1))]

/-- The accumulated `(score, max_possible)` pair of
`_calculate_confidence_score` is exactly the present-modalities numerator
and denominator of its weight table. -/
theorem confidenceParts_eq (i : ConfidenceInputs) :
    confidenceParts i = (fusionNum (confModalities i), fusionDen (confModalities i)) := by
  obtain ⟨es, ec, ps, st, vd⟩ := i
  cases es <;> cases ec <;> cases ps <;> cases st <;> cases vd <;>
    simp only [confidenceParts, confModalities, fusionNum, fusionDen,
      List.filterMap_cons, List.filterMap_nil, Option.map_some', Option.map_none',
      Option.some_bind, Option.none_bind, List.sum_cons, List.sum_nil] <;>
    (try split_ifs) <;>
    simp only [List.filterMap_cons, List.filterMap_nil, Option.map_some', Option.map_none',
      List.sum_cons, List.sum_nil, Prod.mk.injEq] <;>
    refine ⟨?_, ?_⟩ <;>
    (try rw [mul_max_of_nonneg _ _ (show (0:ℚ) ≤ 7/2 by norm_num), mul_zero]) <;>
    ring_nf

/-- As `confidenceParts_eq`, for `_calculate_professionalism_score`. -/
theorem professionalismParts_eq (i : ProfessionalismInputs) :
    professionalismParts i
      = (fusionNum (profModalities i), fusionDen (profModalities i)) := by
  obtain ⟨etr, fec, fd, ps, st⟩ := i
  rcases etr with _ | ⟨_ | ecp, _ | gs⟩ <;>
    rcases fec with _ | fec <;> rcases fd with _ | fd <;>
    rcases ps with _ | ps <;> rcases st with _ | st <;>
    simp only [professionalismParts, profModalities, fusionNum, fusionDen,
      List.filterMap_cons, List.filterMap_nil, List.filterMap_append,
      Option.map_some', Option.map_none', List.sum_cons, List.sum_nil,
      List.sum_append, Prod.mk.injEq] <;>
    refine ⟨?_, ?_⟩ <;> ring_nf

/-- As `confidenceParts_eq`, for `_calculate_engagement_score`. -/
theorem engagementParts_eq (i : EngagementInputs) :
    engagementParts i = (fusionNum (engModalities i), fusionDen (engModalities i)) := by
  obtain ⟨es, sf, att, ml, g⟩ := i
  rcases att with _ | ⟨_ | fp, dc⟩ <;>
    rcases es with _ | es <;> rcases sf with _ | sf <;>
    rcases ml with _ | (_ | _ | _) <;> rcases g with _ | g <;>
    simp only [engagementParts, engModalities, fusionNum, fusionDen,
      List.filterMap_cons, List.filterMap_nil, Option.map_some', Option.map_none',
      Option.some_bind, Option.none_bind, List.sum_cons, List.sum_nil] <;>
    (try split_ifs) <;>
    simp only [List.filterMap_cons, List.filterMap_nil, Option.map_some', Option.map_none',
      List.sum_cons, List.sum_nil, Prod.mk.injEq] <;>
    refine ⟨?_, ?_⟩ <;> ring_nf

/-- Glue: the `score / max_possible * 10` normalization of the source (with
its `max_possible > 0` guard) equals the renormalized fusion of the spec. -/
theorem score_eq_spec_fusion (p : ℚ × ℚ) (l : List (ℚ × Option ℚ))
    (h : p = (fusionNum l, fusionDen l)) :
    (if p.2 > 0 then round2 (clamp010 (p.1 / p.2 * 10)) else 0)
      = round2 (clamp010 (specWeightedFusion l * 10)) := by
  subst h
  simp only [specWeightedFusion]
  split_ifs with hden
  · rfl
  · norm_num [round2, clamp010, round_eq]

/-- A concrete confidence input lacking the voice modality (the
"no audio" side of the fusion-denominator test). -/
def confNoVoiceEx : ConfidenceInputs :=
  { emotionsSummary := none
    eye_contact := some (4 / 5)
    posture_score := some (4 / 5)
    stability := some (4 / 5)
    voiceData := none }

/-- C1: every composite-score computation (confidence, professionalism,
engagement) equals the renormalized spec fusion
`Σ(weight × metric) / Σ(weight)` taken over only the modalities that
produced a value, scaled by 10, clamped and rounded — a missing modality
is excluded from numerator and denominator alike; and on a concrete input
lacking the voice modality the confidence score (8.0, renormalized over
the remaining modalities) differs from the naive zero-substitution value
(3.6). -/
theorem C1_fusion_renormalization :
    (∀ i : ConfidenceInputs,
      calculate_confidence_score i
        = round2 (clamp010 (specWeightedFusion (confModalities i) * 10)))
    ∧ (∀ i : ProfessionalismInputs,
      calculate_professionalism_score i
        = round2 (clamp010 (specWeightedFusion (profModalities i) * 10)))
    ∧ (∀ i : EngagementInputs,
      calculate_engagement_score i
        = round2 (clamp010 (specWeightedFusion (engModalities i) * 10)))
    ∧ calculate_confidence_score confNoVoiceEx = 8
    ∧ round2 (clamp010 (naiveZeroFusion (confModalities confNoVoiceEx) * 10)) = 18 / 5
    ∧ calculate_confidence_score confNoVoiceEx
        ≠ round2 (clamp010 (naiveZeroFusion (confModalities confNoVoiceEx) * 10)) := by
  have hc : ∀ i : ConfidenceInputs,
      calculate_confidence_score i
        = round2 (clamp010 (specWeightedFusion (confModalities i) * 10)) := by
    intro i
    simp only [calculate_confidence_score]
    rw [confidenceParts_eq i]
    exact score_eq_spec_fusion _ _ rfl
  have h8 : calculate_confidence_score confNoVoiceEx = 8 := by
    rw [hc]
    norm_num [confNoVoiceEx, confModalities, specWeightedFusion, fusionNum, fusionDen,
      List.filterMap_cons, List.filterMap_nil, Option.map_some', Option.map_none',
      List.sum_cons, List.sum_nil, clamp010, round2, round_eq]
  have hnaive :
      round2 (clamp010 (naiveZeroFusion (confModalities confNoVoiceEx) * 10)) = 18 / 5 := by
    norm_num [confNoVoiceEx, confModalities, naiveZeroFusion,
      List.map_cons, List.map_nil, List.sum_cons, List.sum_nil,
      Option.getD_some, Option.getD_none, clamp010, round2, round_eq]
  refine ⟨hc, ?_, ?_, h8, hnaive, ?_⟩
  · intro i
    simp only [calculate_professionalism_score]
    rw [professionalismParts_eq i]
    exact score_eq_spec_fusion _ _ rfl
  · intro i
    simp only [calculate_engagement_score]
    rw [engagementParts_eq i]
    exact score_eq_spec_fusion _ _ rfl
  · rw [h8, hnaive]
    norm_num

/-- C2: every composite score — confidence, professionalism, engagement,
authenticity — lies in `[0, 10]` for every input. -/
theorem C2_scores_in_range :
    (∀ i : ConfidenceInputs,
      0 ≤ calculate_confidence_score i ∧ calculate_confidence_score i ≤ 10)
    ∧ (∀ i : ProfessionalismInputs,
      0 ≤ calculate_professionalism_score i ∧ calculate_professionalism_score i ≤ 10)
    ∧ (∀ i : EngagementInputs,
      0 ≤ calculate_engagement_score i ∧ calculate_engagement_score i ≤ 10)
    ∧ (∀ (mc : ℕ) (vd : Option VoiceForAuthenticity),
      0 ≤ calculate_authenticity_score mc vd ∧ calculate_authenticity_score mc vd ≤ 10) := by
  refine ⟨?_, ?_, ?_, ?_⟩
  · intro i
    simp only [calculate_confidence_score]
    split_ifs
    · exact round2_clamp010_mem _
    · exact ⟨le_refl 0, by norm_num⟩
  · intro i
    simp only [calculate_professionalism_score]
    split_ifs
    · exact round2_clamp010_mem _
    · exact ⟨le_refl 0, by norm_num⟩
  · intro i
    simp only [calculate_engagement_score]
    split_ifs
    · exact round2_clamp010_mem _
    · exact ⟨le_refl 0, by norm_num⟩
  · intro mc vd
    simp only [calculate_authenticity_score]
    exact round2_clamp010_mem _

/-! ## Recommendations (`VideoAnalyzer._generate_recommendations`)

Message texts are abbreviated ASCII forms; each constant stands for one
source message. -/

def recEyeContact : String := "Improve eye contact - aim for 60-80 percent direct camera gaze"
def recHighBlink : String := "High blink rate detected - try to relax and reduce nervousness"
def recLowBlink : String := "Very low blink rate - remember to blink naturally to avoid appearing tense"
def recSteadyGaze : String := "Maintain steadier gaze - avoid darting eyes by focusing on the camera"
/-- The filler-word message interpolates the detected count. -/
def recFiller (n : ℕ) : String := "Reduce filler words (detected " ++ toString n ++ ") - pause instead"
def recSlowDown : String := "Slow down your speech - aim for 120-160 words per minute"
def recSpeedUp : String := "Speak a bit faster - your pace is too slow, aim for 120-160 wpm"
def recVocalEnergy : String := "Increase vocal energy and enthusiasm in your delivery"
def recClarityMsg : String := "Improve speech clarity - articulate words more clearly"
def recFocus : String := "Maintain better focus - you looked away frequently during the interview"
def recDistractions : String := "Minimize distractions - ensure a quiet, focused environment"
def recMicroExpr : String := "High micro-expression rate suggests nervousness - practice to feel more comfortable"
def recBuildConfidence : String := "Build confidence through practice and positive self-talk"
def recBeAuthentic : String := "Be more authentic - let your genuine personality show through"
def recSmileMore : String := "Smile more naturally - it shows engagement and positivity"
def recUseGestures : String := "Use natural hand gestures to emphasize key points"
def recReduceMovement : String := "Reduce excessive movement - maintain a calm, steady presence"
def recPosture : String := "Improve posture - sit up straight and maintain good body alignment"
def recShowEnthusiasm : String := "Show more enthusiasm and engagement with your answers"
def recProfessionalismMsg : String := "Enhance professionalism through better posture and eye contact"
def recPositiveFraming : String := "Frame experiences more positively - focus on achievements and learning"
def recOutstanding : String := "Outstanding performance! You demonstrated excellent interview skills across all metrics"
def recGreatJob : String := "Great job! You showed strong interview presence and communication skills"

/-- The energy-level labels assigned by `_analyze_voice`. -/
inductive EnergyLevel
  | low
  | moderate
  | high
deriving DecidableEq, Repr

/-- The sentiment labels assigned by `_analyze_sentiment`; `unknownLabel`
models an absent `sentiment` dict (`results.get("sentiment", {})`, whose
`.get("label")` is then `None`, which is not `"negative"`). -/
inductive SentimentLabel
  | positive
  | neutral
  | negative
  | unknownLabel
deriving DecidableEq, Repr

/-- The voice fields read by `_generate_recommendations`; the whole group
of voice rules is gated on a truthy `voice` dict. -/
structure VoiceForRecs where
  total_filler_count : ℕ
  speech_rate : ℚ
  energy_level : EnergyLevel
  clarity_score : ℚ
deriving DecidableEq, Repr

/-- The fields of the `results` dict read by `_generate_recommendations`
(`src/video_analysis.py:1268`), with each `.get(key, default)` default
folded in (`0` for the numeric fields), `voiceData` an `Option` for the
`if voice:` truthiness gate, and `movement_level` an `Option` because a
missing key compares unequal to both `"minimal"` and `"active"`. -/
structure RecommendationInputs where
  eye_contact_percentage : ℚ
  blink_rate : ℚ
  gaze_stability : ℚ
  voiceData : Option VoiceForRecs
  focus_percentage : ℚ
  distraction_count : ℕ
  micro_detected_count : ℕ
  confidence_score : ℚ
  authenticity_score : ℚ
  smile_frequency : ℚ
  movement_level : Option MovementLevel
  posture_score : ℚ
  engagement_score : ℚ
  professionalism_score : ℚ
  sentimentLabel : SentimentLabel
deriving DecidableEq, Repr

/-- The threshold rules of `_generate_recommendations`, in source order,
before the banner insertion and truncation. -/
def collectRecommendations (r : RecommendationInputs) : List String :=
  let l : List String := []
  let l := if r.eye_contact_percentage < 60 then l ++ [recEyeContact] else l
  let l := if r.blink_rate > 30 then l ++ [recHighBlink]
           else if r.blink_rate < 10 then l ++ [recLowBlink] else l
  let l := if r.gaze_stability < 3 / 5 then l ++ [recSteadyGaze] else l
  let l := match r.voiceData with
    | some v =>
      let l := if v.total_filler_count > 10 then l ++ [recFiller v.total_filler_count] else l
      let l := if v.speech_rate > 160 then l ++ [recSlowDown]
               else if v.speech_rate < 100 ∧ v.speech_rate > 0 then l ++ [recSpeedUp] else l
      let l := if v.energy_level = EnergyLevel.low then l ++ [recVocalEnergy] else l
      if v.clarity_score < 7 / 10 then l ++ [recClarityMsg] else l
    | none => l
  let l := if r.focus_percentage < 70 then l ++ [recFocus] else l
  let l := if r.distraction_count > 5 then l ++ [recDistractions] else l
  let l := if r.micro_detected_count > 25 then l ++ [recMicroExpr] else l
  let l := if r.confidence_score < 6 then l ++ [recBuildConfidence] else l
  let l := if r.authenticity_score < 6 then l ++ [recBeAuthentic] else l
  let l := if r.smile_frequency < 1 / 5 then l ++ [recSmileMore] else l
  let l := match r.movement_level with
    | some MovementLevel.minimal => l ++ [recUseGestures]
    | some MovementLevel.active => l ++ [recReduceMovement]
    | _ => l
  let l := if r.posture_score < 7 / 10 then l ++ [recPosture] else l
  let l := if r.engagement_score < 6 then l ++ [recShowEnthusiasm] else l
  let l := if r.professionalism_score < 7 then l ++ [recProfessionalismMsg] else l
  if r.sentimentLabel = SentimentLabel.negative then l ++ [recPositiveFraming] else l

/-- `VideoAnalyzer._generate_recommendations`
(`src/video_analysis.py:1268`): collect the firing rules, prepend
(`recommendations.insert(0, ...)`) the outstanding banner when all three
primary scores are at least 8 (else the lesser banner when confidence and
professionalism are at least 7), and truncate to the top 8
(`recommendations[:8]`). -/
def generate_recommendations (r : RecommendationInputs) : List String :=
  (if r.confidence_score ≥ 8 ∧ r.professionalism_score ≥ 8 ∧ r.engagement_score ≥ 8 then
    recOutstanding :: collectRecommendations r
  else if r.confidence_score ≥ 7 ∧ r.professionalism_score ≥ 7 then
    recGreatJob :: collectRecommendations r
  else
    collectRecommendations r).take 8

/-- C8: the returned recommendation list never exceeds 8 entries, however
many rules fire; and when all three primary scores are at least 8 the
outstanding banner is prepended as the first element, surviving the
truncation. -/
theorem C8_recommendations_truncation :
    (∀ r : RecommendationInputs, (generate_recommendations r).length ≤ 8)
    ∧ (∀ r : RecommendationInputs,
      r.confidence_score ≥ 8 → r.professionalism_score ≥ 8 → r.engagement_score ≥ 8 →
        (generate_recommendations r).head? = some recOutstanding) := by
  constructor
  · intro r
    simp only [generate_recommendations]
    rw [List.length_take]
    exact min_le_left _ _
  · intro r h1 h2 h3
    simp only [generate_recommendations]
    rw [if_pos ⟨h1, h2, h3⟩, List.take_succ_cons, List.head?_cons]

/-- A metrics record on which every threshold rule fires (worst-case
inputs), for the C8 witness; the three primary scores at 8 also trigger
the banner branch. -/
def worstCaseRecsEx : RecommendationInputs :=
  { eye_contact_percentage := 0
    blink_rate := 40
    gaze_stability := 0
    voiceData := some
      { total_filler_count := 20
        speech_rate := 200
        energy_level := EnergyLevel.low
        clarity_score := 0 }
    focus_percentage := 0
    distraction_count := 9
    micro_detected_count := 30
    confidence_score := 8
    authenticity_score := 0
    smile_frequency := 0
    movement_level := some MovementLevel.minimal
    posture_score := 0
    engagement_score := 8
    professionalism_score := 8
    sentimentLabel := SentimentLabel.negative }

/-- Witness for C8: on `worstCaseRecsEx` (which fires more than 8 rules
and satisfies the all-scores-at-least-8 banner condition) the list has at
most 8 entries and starts with the outstanding banner. -/
theorem C8_recommendations_truncation_witness :
    (generate_recommendations worstCaseRecsEx).length ≤ 8
    ∧ (generate_recommendations worstCaseRecsEx).head? = some recOutstanding
    ∧ (8 : ℚ) ≥ 8 := by
  refine ⟨C8_recommendations_truncation.1 worstCaseRecsEx, ?_, le_refl 8⟩
  exact C8_recommendations_truncation.2 worstCaseRecsEx (by norm_num [worstCaseRecsEx])
    (by norm_num [worstCaseRecsEx]) (by norm_num [worstCaseRecsEx])

/-! ## Realtime analyzer (`src/realtime_analysis.py`)

The vision front end (`_analyze_gaze_fast` over a raw frame) is abstracted
into the per-frame Boolean `eyeContact` classification it produces; the
claims under test are about the rolling-history state machine around it.
`face_mesh` is modelled as available (the gaze branch runs). -/

/-- The mutable state of `RealtimeAnalyzer` touched by the eye-contact
alert logic: `self.frame_count` and
`self.metrics_history["eye_contact"]`. -/
structure RealtimeAnalyzer where
  frame_count : ℕ
  eye_contact_history : List ℚ
deriving DecidableEq, Repr

/-- `RealtimeAnalyzer.__init__` (`src/realtime_analysis.py:29`): zero
frames, empty history. -/
def RealtimeAnalyzer.init : RealtimeAnalyzer :=
  { frame_count := 0, eye_contact_history := [] }

/-- `RealtimeAnalyzer.reset` (`src/realtime_analysis.py:279`): clears the
frame count and the rolling histories. -/
def RealtimeAnalyzer.reset (_ : RealtimeAnalyzer) : RealtimeAnalyzer :=
  RealtimeAnalyzer.init

/-- The alert message of the eye-contact alert. -/
def eyeContactAlertMsg : String := "Look at the camera more often"

/-- Python `l[-n:]`: the last `n` elements. -/
def lastN (n : ℕ) (l : List ℚ) : List ℚ := l.drop (l.length - n)

/-- `np.mean` of a list. -/
def listMean (l : List ℚ) : ℚ := l.sum / (l.length : ℚ)

/-- The fields of the result dict of `analyze_frame` relevant to the claims. -/
structure FrameResult where
  frame_number : ℕ
  alerts : List String
deriving DecidableEq, Repr

/-- `RealtimeAnalyzer.analyze_frame` (`src/realtime_analysis.py:59`),
restricted to the eye-contact path: increment `frame_count`, append the
per-frame eye-contact bit (1.0 or 0.0), then

```
if len(self.metrics_history["eye_contact"]) > 30:
    recent_eye_contact = np.mean(self.metrics_history["eye_contact"][-30:])
    if recent_eye_contact < self.ALERT_THRESHOLDS["eye_contact_low"]:  # 0.4
        result["alerts"].append({"type": "eye_contact", ...})
```

and finally trim the history to the last 100 entries. -/
def analyze_frame (s : RealtimeAnalyzer) (eyeContact : Bool) :
    FrameResult × RealtimeAnalyzer :=
  let fc := s.frame_count + 1
  let hist := s.eye_contact_history ++ [if eyeContact then (1 : ℚ) else 0]
  let alerts : List String :=
    if hist.length > 30 ∧ listMean (lastN 30 hist) < 2 / 5 then [eyeContactAlertMsg] else []
  let hist2 := if hist.length > 100 then lastN 100 hist else hist
  ({ frame_number := fc, alerts := alerts },
   { frame_count := fc, eye_contact_history := hist2 })

/-- Feed a sequence of classified frames through `analyze_frame`,
collecting the per-frame results. -/
def runFrames (s : RealtimeAnalyzer) : List Bool → (List FrameResult × RealtimeAnalyzer)
  | [] => ([], s)
  | b :: bs =>
    let r := analyze_frame s b
    let rest := runFrames r.2 bs
    (r.1 :: rest.1, rest.2)

/-- The fields of `RealtimeAnalyzer.get_session_summary`
(`src/realtime_analysis.py:258`): `total_frames`, `duration_seconds`
(`frame_count / 30`), and the average eye-contact percentage, present only
when the history is nonempty. -/
structure SessionSummary where
  total_frames : ℕ
  duration_seconds : ℚ
  eye_contact_percentage : Option ℚ
deriving DecidableEq, Repr

/-- `RealtimeAnalyzer.get_session_summary`. -/
def get_session_summary (s : RealtimeAnalyzer) : SessionSummary :=
  { total_frames := s.frame_count
    duration_seconds := (s.frame_count : ℚ) / 30
    eye_contact_percentage :=
      if s.eye_contact_history = [] then none
      else some (round2 (listMean s.eye_contact_history * 100)) }

/-- `get_realtime_analyzer` (`src/realtime_analysis.py:291`): the
module-level singleton.  The `Option RealtimeAnalyzer` argument models the
global `_realtime_analyzer` (initially `None`); the returned analyzer
aliases the stored one, so every session operates on the module state. -/
def get_realtime_analyzer :
    Option RealtimeAnalyzer → RealtimeAnalyzer × Option RealtimeAnalyzer
  | some a => (a, some a)
  | none => (RealtimeAnalyzer.init, some RealtimeAnalyzer.init)

/-- The connection prologue of the websocket handler
`websocket_realtime_analysis` (`src/fastapi_app.py:3027`):
`analyzer = get_realtime_analyzer(); analyzer.reset()`.  Because the
returned analyzer aliases the singleton, the reset is visible in the
module state. -/
def sessionConnect (m : Option RealtimeAnalyzer) : Option RealtimeAnalyzer :=
  some ((get_realtime_analyzer m).1.reset)

/-- The frame loop of a session: each `{"type": "frame"}` message calls
`analyzer.analyze_frame(frame)` on the aliased singleton. -/
def sessionFrames (m : Option RealtimeAnalyzer) (frames : List Bool) :
    List FrameResult × Option RealtimeAnalyzer :=
  let r := runFrames (get_realtime_analyzer m).1 frames
  (r.1, some r.2)

/-- The end-of-session handling of a session:
`analyzer.get_session_summary()` on the aliased singleton. -/
def sessionSummary (m : Option RealtimeAnalyzer) : SessionSummary :=
  get_session_summary (get_realtime_analyzer m).1

/-! ## Eye-tracking accumulation (`VideoAnalyzer._analyze_eye_tracking`)

The per-frame loop over sampled frames, abstracted over the MediaPipe
observations: a processed frame either has no detected face landmarks
(`noFace`) or has a face with a computed eye-aspect-ratio and a gaze
computation that either produced offsets or raised (`none`). -/

/-- One processed (sampled) frame of `_analyze_eye_tracking`
(`src/video_analysis.py:367`). -/
inductive EyeFrame
  | noFace
  | face (ear : ℚ) (gazeInput : Option (ℚ × ℚ))
deriving DecidableEq, Repr

/-- The loop accumulator of `_analyze_eye_tracking`: `total_analyzed`,
`blink_counter`, `eye_contact_frames`, the five `gaze_direction` histogram
counters, `ear_history` and `gaze_positions`. -/
structure EyeAccum where
  total_analyzed : ℕ
  blink_counter : ℕ
  eye_contact_frames : ℕ
  center_count : ℕ
  left_count : ℕ
  right_count : ℕ
  up_count : ℕ
  down_count : ℕ
  ear_history : List ℚ
  gaze_positions : List (ℚ × ℚ)
deriving DecidableEq, Repr

/-- The zero-initialized accumulator. -/
def initEyeAccum : EyeAccum :=
  { total_analyzed := 0, blink_counter := 0, eye_contact_frames := 0
    center_count := 0, left_count := 0, right_count := 0
    up_count := 0, down_count := 0, ear_history := [], gaze_positions := [] }

/-- One iteration of the `while cap.isOpened()` loop body of
`_analyze_eye_tracking` for a processed frame: on a detected face, append
the EAR, count a blink when `ear < 0.25`, run the gaze computation (with
its center/zero-offset fallback on failure), store `(g.x, g.y)` in
`gaze_positions`, bump the histogram entry for `g.direction`, and bump
`eye_contact_frames` when the direction is `center`. -/
def eyeStep (a : EyeAccum) : EyeFrame → EyeAccum
  | EyeFrame.noFace => a
  | EyeFrame.face ear gi =>
    let g := calculate_gaze_direction_result gi
    { a with
      total_analyzed := a.total_analyzed + 1
      ear_history := a.ear_history ++ [ear]
      blink_counter := a.blink_counter + (if ear < 1 / 4 then 1 else 0)
      gaze_positions := a.gaze_positions ++ [(g.x, g.y)]
      eye_contact_frames :=
        a.eye_contact_frames + (if g.direction = GazeDir.center then 1 else 0)
      center_count := a.center_count + (if g.direction = GazeDir.center then 1 else 0)
      left_count := a.left_count + (if g.direction = GazeDir.left then 1 else 0)
      right_count := a.right_count + (if g.direction = GazeDir.right then 1 else 0)
      up_count := a.up_count + (if g.direction = GazeDir.up then 1 else 0)
      down_count := a.down_count + (if g.direction = GazeDir.down then 1 else 0) }

/-- The whole stride walk of `_analyze_eye_tracking` over the processed
frames. -/
def analyze_eye_tracking_accum (frames : List EyeFrame) : EyeAccum :=
  frames.foldl eyeStep initEyeAccum

/-- `eye_contact_percentage = round((eye_contact_frames / total_analyzed)
* 100, 2)`, computed when `total_analyzed > 0` (else the initializer 0.0
stands). -/
def eye_contact_percentage (a : EyeAccum) : ℚ :=
  if a.total_analyzed > 0 then
    round2 ((a.eye_contact_frames : ℚ) / (a.total_analyzed : ℚ) * 100)
  else 0

/-- `np.var` (population variance) of a list. -/
def listVarPop (l : List ℚ) : ℚ :=
  ((l.map (fun v => (v - listMean l) ^ 2)).sum) / (l.length : ℚ)

/-- `gaze_stability = round(max(0, 1 - (var(xs ++ ys) / 0.1)), 2)` over
the collected gaze positions (computed when the list is nonempty). -/
def gaze_stability (positions : List (ℚ × ℚ)) : ℚ :=
  if positions = [] then 0
  else
    round2 (max 0 (1 - listVarPop (positions.map Prod.fst ++ positions.map Prod.snd) / (1 / 10)))

/-- Splitting a frame sequence splits the collected results and threads
the state. -/
theorem runFrames_append (s : RealtimeAnalyzer) (l1 l2 : List Bool) :
    runFrames s (l1 ++ l2)
      = ((runFrames s l1).1 ++ (runFrames (runFrames s l1).2 l2).1,
         (runFrames (runFrames s l1).2 l2).2) := by
  induction l1 generalizing s with
  | nil => simp [runFrames]
  | cons b bs ih => simp [runFrames, ih]

/-- C6 counterexample: after 30 consecutive no-eye-contact frames from a
fresh session, the response for frame 30 carries NO alert, because the source
checks `len(history) > 30` strictly, and the history holds exactly 30
entries at that point. -/
theorem C6_frame30_no_alert :
    ((runFrames RealtimeAnalyzer.init (List.replicate 30 false)).1).getLast?
      = some { frame_number := 30, alerts := [] } := by decide

/-- C6 amended: in the scenario given by the spec (frames 1-30 classified no eye
contact, frame 31 eye contact) the eye-contact alert first appears in
the response for frame 31 (rolling mean 1/30 < 0.4 over a history that now
exceeds 30 entries), while the response for frame 30 has no alert. -/
theorem C6_alert_first_at_frame_31 :
    ((runFrames RealtimeAnalyzer.init (List.replicate 30 false ++ [true])).1).getLast?
      = some { frame_number := 31, alerts := [eyeContactAlertMsg] }
    ∧ ((runFrames RealtimeAnalyzer.init (List.replicate 30 false ++ [true])).1)[29]?
      = some { frame_number := 30, alerts := [] } := by
  have happ := runFrames_append RealtimeAnalyzer.init (List.replicate 30 false) [true]
  have hs30 : (runFrames RealtimeAnalyzer.init (List.replicate 30 false)).2
      = { frame_count := 30, eye_contact_history := List.replicate 30 0 } := by decide
  have hres30 : (runFrames RealtimeAnalyzer.init (List.replicate 30 false)).1
      = (List.range 30).map (fun k => { frame_number := k + 1, alerts := [] }) := by decide
  have hstep : (runFrames
        { frame_count := 30, eye_contact_history := List.replicate 30 0 } [true]).1
      = [{ frame_number := 31, alerts := [eyeContactAlertMsg] }] := by
    have hlen : ((List.replicate 30 (0:ℚ)) ++ [1]).length = 31 := by simp
    have hdrop : lastN 30 ((List.replicate 30 (0:ℚ)) ++ [1])
        = (List.replicate 29 (0:ℚ)) ++ [1] := by
      simp only [lastN, hlen]
      rw [show (31 - 30 : ℕ) = 1 by norm_num]
      rw [show (List.replicate 30 (0:ℚ)) = 0 :: List.replicate 29 0 from
        List.replicate_succ 0 29]
      simp
    have hmean : listMean ((List.replicate 29 (0:ℚ)) ++ [1]) = 1 / 30 := by
      simp [listMean, List.sum_replicate]
    simp only [runFrames, analyze_frame]
    norm_num [hlen, hdrop, hmean, lastN]
  have hfst : (runFrames RealtimeAnalyzer.init (List.replicate 30 false ++ [true])).1
      = (List.range 30).map (fun k => { frame_number := k + 1, alerts := [] })
        ++ [{ frame_number := 31, alerts := [eyeContactAlertMsg] }] := by
    rw [show (runFrames RealtimeAnalyzer.init (List.replicate 30 false ++ [true])).1
        = (runFrames RealtimeAnalyzer.init (List.replicate 30 false)).1
          ++ (runFrames (runFrames RealtimeAnalyzer.init
              (List.replicate 30 false)).2 [true]).1 from by rw [happ]]
    rw [hs30, hstep, hres30]
  rw [hfst]
  refine ⟨by decide, by decide⟩

/-- C9 counterexample to session noninterference: two runs in which
session B does exactly the same things (connect, send no frames, end) but
the interleaved frames of session A differ (5 frames vs none); the session
summary of B differs between the runs, because every session aliases the one
module-level singleton analyzer. -/
theorem C9_session_interference_counterexample :
    (sessionSummary ((sessionFrames (sessionConnect (sessionConnect none))
        (List.replicate 5 true)).2)).total_frames = 5
    ∧ (sessionSummary (sessionConnect (sessionConnect none))).total_frames = 0
    ∧ sessionSummary ((sessionFrames (sessionConnect (sessionConnect none))
        (List.replicate 5 true)).2)
      ≠ sessionSummary (sessionConnect (sessionConnect none)) := by
  refine ⟨by decide, by decide, fun h => ?_⟩
  have hc := congrArg SessionSummary.total_frames h
  have h5 : (sessionSummary ((sessionFrames (sessionConnect (sessionConnect none))
      (List.replicate 5 true)).2)).total_frames = 5 := by decide
  have h0 : (sessionSummary (sessionConnect (sessionConnect none))).total_frames = 0 := by
    decide
  rw [h5, h0] at hc
  exact absurd hc (by decide)

/-- C9 amended: all realtime sessions share the single process-wide
analyzer held by `get_realtime_analyzer` — when the singleton exists it is
returned as-is (so a later session receives exactly the state the earlier
session left), every new connection resets the shared state for everyone,
and the summary of a session counts frames another session analyzed (the
concrete run: the summary of B reports the 5 frames A sent). -/
theorem C9_singleton_shared_state :
    (∀ s : RealtimeAnalyzer, get_realtime_analyzer (some s) = (s, some s))
    ∧ (∀ m : Option RealtimeAnalyzer,
        (get_realtime_analyzer (sessionConnect m)).1 = RealtimeAnalyzer.init)
    ∧ (sessionSummary ((sessionFrames (sessionConnect (sessionConnect none))
        (List.replicate 5 true)).2)).total_frames = 5 := by
  refine ⟨fun s => rfl, fun m => ?_, by decide⟩
  cases m <;> rfl

/-- C10: a frame with a detected face whose gaze computation raises is
folded in as `center` with zero offsets: it increments `total_analyzed`,
`eye_contact_frames` and the `center` histogram entry, and appends
`(0, 0)` to the gaze positions — hence it enters
`eye_contact_percentage` and (through the zero offsets in the variance
list) `gaze_stability`. -/
theorem C10_failed_gaze_counts_center (frames : List EyeFrame) (e : ℚ) :
    (analyze_eye_tracking_accum (frames ++ [EyeFrame.face e none])).total_analyzed
      = (analyze_eye_tracking_accum frames).total_analyzed + 1
    ∧ (analyze_eye_tracking_accum (frames ++ [EyeFrame.face e none])).eye_contact_frames
      = (analyze_eye_tracking_accum frames).eye_contact_frames + 1
    ∧ (analyze_eye_tracking_accum (frames ++ [EyeFrame.face e none])).center_count
      = (analyze_eye_tracking_accum frames).center_count + 1
    ∧ (analyze_eye_tracking_accum (frames ++ [EyeFrame.face e none])).gaze_positions
      = (analyze_eye_tracking_accum frames).gaze_positions ++ [(0, 0)]
    ∧ eye_contact_percentage (analyze_eye_tracking_accum (frames ++ [EyeFrame.face e none]))
      = round2 ((((analyze_eye_tracking_accum frames).eye_contact_frames : ℚ) + 1)
          / (((analyze_eye_tracking_accum frames).total_analyzed : ℚ) + 1) * 100)
    ∧ gaze_stability
        (analyze_eye_tracking_accum (frames ++ [EyeFrame.face e none])).gaze_positions
      = gaze_stability ((analyze_eye_tracking_accum frames).gaze_positions ++ [(0, 0)]) := by
  have hstep : analyze_eye_tracking_accum (frames ++ [EyeFrame.face e none])
      = eyeStep (analyze_eye_tracking_accum frames) (EyeFrame.face e none) := by
    simp [analyze_eye_tracking_accum, List.foldl_append]
  rw [hstep]
  simp only [eyeStep, calculate_gaze_direction_result]
  refine ⟨by simp, by simp, by simp, by simp, ?_, by simp⟩
  simp only [eye_contact_percentage]
  rw [if_pos (Nat.succ_pos _)]
  norm_num [Nat.cast_add]

end Intervyou
